import Mathlib

/-
Verification development for the deadline/temporal-expression normalizer of
AIMailPilot (src/app/utils/deadline_utils.py, src/app/core/config.py).

The Python function normalize_deadline(text, ref_datetime, tz, sent_date) is
shallowly embedded below.  Python exceptions are modelled with Except:
re.error (raised by re.search when a pattern does not compile) and ValueError
(raised by datetime.replace on an invalid calendar component) are the two
exceptions the source can produce.  The module-global settings.work_end_hour
(src/app/core/config.py line 11, default 17) and the ambient clock
datetime.now are modelled as explicit parameters, which is the standard
shallow embedding of a global read.

A central fact established here: the first entry of ambiguous_patterns
(line 73 of the source) is the regex (?<!end\s+of\s)\bnext\s+week\b whose
look-behind contains \s+ and is therefore variable-width; CPython's re module
rejects such look-behinds ("look-behind requires fixed-width pattern"), and
re.search raises re.error at its first call.  Hence every call whose text is
a non-empty string raises before any cascade rule runs.  Patterns at lines
75 and 76 are broken the same way.  Besides the literal model
(normalize_deadline), a second model (normalize_deadline_repaired) gives
those three patterns the semantics their in-source comments describe
("Exclude 'end of next week'" etc., the semantics the third-party regex
module implements); it is used to exhibit what the cascade does past the
crash.  Everything else is translated unchanged from the source.
-/

namespace AIMailPilot

/- ### Character classes (ASCII fragment, which the deadline idioms use) -/

/-- Python str.strip / regex \s whitespace, ASCII fragment:
space, tab, newline, carriage return, vertical tab, form feed. -/
def isWs (c : Char) : Bool :=
  c.toNat = 32 || c.toNat = 9 || c.toNat = 10 || c.toNat = 13 ||
  c.toNat = 11 || c.toNat = 12

/-- regex \d on ASCII. -/
def isDigitC (c : Char) : Bool := 48 ≤ c.toNat && c.toNat ≤ 57

/-- regex \w on ASCII: letters, digits, underscore. -/
def isWordC (c : Char) : Bool :=
  (65 ≤ c.toNat && c.toNat ≤ 90) || (97 ≤ c.toNat && c.toNat ≤ 122) ||
  isDigitC c || c.toNat = 95

/-- The character class [a-z] used after month abbreviations. -/
def isLowerAZ (c : Char) : Bool := 97 ≤ c.toNat && c.toNat ≤ 122

/-- str.lower on ASCII letters (the idioms recognized are ASCII). -/
def pyLowerC (c : Char) : Char :=
  if 65 ≤ c.toNat && c.toNat ≤ 90 then Char.ofNat (c.toNat + 32) else c

/-- str.strip: drop whitespace from both ends. -/
def pyStrip (l : List Char) : List Char :=
  ((l.dropWhile (fun c => isWs c)).reverse.dropWhile (fun c => isWs c)).reverse

def digitVal (c : Char) : Nat := c.toNat - 48

/-- int() on a non-empty digit string, as used on regex groups. -/
def parseNat (cs : List Char) : Nat :=
  cs.foldl (fun a c => 10 * a + digitVal c) 0

def digitChar : Nat → Char
  | 0 => '0' | 1 => '1' | 2 => '2' | 3 => '3' | 4 => '4'
  | 5 => '5' | 6 => '6' | 7 => '7' | 8 => '8' | _ => '9'

def pad2 (n : Nat) : List Char := [digitChar (n / 10 % 10), digitChar (n % 10)]

def pad4 (n : Nat) : List Char :=
  [digitChar (n / 1000 % 10), digitChar (n / 100 % 10),
   digitChar (n / 10 % 10), digitChar (n % 10)]

/- ### Gregorian calendar arithmetic (datetime, calendar.monthrange) -/

def isLeapYear (y : Nat) : Bool := y % 4 = 0 && (y % 100 ≠ 0 || y % 400 = 0)

/-- calendar.monthrange(y, m)[1]: actual length of month m in year y.
Only queried at months 1..12 (the source guarantees this); other inputs
take the default arm. -/
def daysInMonth (y m : Nat) : Nat :=
  match m with
  | 2 => if isLeapYear y then 29 else 28
  | 4 | 6 | 9 | 11 => 30
  | _ => 31

/-- Days before month m in year y (cumulative month lengths). -/
def daysBeforeMonth (y m : Nat) : Nat :=
  (match m with
   | 1 => 0 | 2 => 31 | 3 => 59 | 4 => 90 | 5 => 120 | 6 => 151
   | 7 => 181 | 8 => 212 | 9 => 243 | 10 => 273 | 11 => 304 | _ => 334)
  + (if 3 ≤ m && isLeapYear y then 1 else 0)

/-- Python date.toordinal: proleptic Gregorian day number, Jan 1 of year 1
is ordinal 1. -/
def toOrdinal (y m d : Nat) : Nat :=
  365 * (y - 1) + (y - 1) / 4 + (y - 1) / 400 + daysBeforeMonth y m + d
    - (y - 1) / 100

/- ### The datetime value and its operations -/

/-- A Python datetime: civil fields plus an optional fixed-offset timezone
in minutes east of UTC (none models a naive datetime).  The source resolves
timezones through zoneinfo.ZoneInfo; the claims exercise only UTC, so the
zone table below is the fixed-offset fragment containing UTC. -/
structure PyDateTime where
  year : Nat
  month : Nat
  day : Nat
  hour : Nat
  minute : Nat
  second : Nat
  micro : Nat
  tzOffset : Option Int
deriving Repr, DecidableEq

/-- datetime.weekday(): Monday = 0 ... Sunday = 6. -/
def pyWeekday (dt : PyDateTime) : Nat :=
  (toOrdinal dt.year dt.month dt.day - 1) % 7

/-- The calendar successor of a date (time fields untouched). -/
def nextDay (d : PyDateTime) : PyDateTime :=
  if d.day < daysInMonth d.year d.month then { d with day := d.day + 1 }
  else if d.month < 12 then { d with month := d.month + 1, day := 1 }
  else { d with year := d.year + 1, month := 1, day := 1 }

/-- dt + timedelta(days = n).  The source only ever adds day counts in
0..13 (one day, a weekday distance in 1..7, or days-to-Friday plus at most
one week), for which iterated succession is exact date arithmetic. -/
def addDays (d : PyDateTime) : Nat → PyDateTime
  | 0 => d
  | n + 1 => nextDay (addDays d n)

/-- The two exceptions the source can raise. -/
inductive PyExc where
  | reError
  | valueError
deriving Repr, DecidableEq

/-- Field validity enforced by the datetime constructor, hence by
datetime.replace, which raises ValueError otherwise. -/
def validDT (d : PyDateTime) : Bool :=
  1 ≤ d.year && d.year ≤ 9999 && 1 ≤ d.month && d.month ≤ 12 &&
  1 ≤ d.day && d.day ≤ daysInMonth d.year d.month &&
  d.hour ≤ 23 && d.minute ≤ 59 && d.second ≤ 59 && d.micro ≤ 999999

/-- datetime.replace: the record update is performed by the caller; this
models the constructor validation (ValueError on an invalid component). -/
def mkChecked (d : PyDateTime) : Except PyExc PyDateTime :=
  if validDT d then .ok d else .error .valueError

/-- UTC microseconds of an aware datetime (naive treated as UTC; the source
only ever compares aware values, both stamped with a zone beforehand). -/
def utcMicros (d : PyDateTime) : Int :=
  ((((toOrdinal d.year d.month d.day : Int) * 24 + d.hour) * 60 + d.minute
      - d.tzOffset.getD 0) * 60 + d.second) * 1000000 + d.micro

/-- The aware comparison deadline < year_ref (line 293 of the source). -/
def pyLt (a b : PyDateTime) : Bool := utcMicros a < utcMicros b

/-- Fixed-offset model of ZoneInfo: the claims exercise only "UTC"; an
unrecognized identifier is none, modelling the ZoneInfoNotFoundError that
the source catches and turns into the UTC fallback. -/
def zoneInfo (s : String) : Option Int := if s = "UTC" then some 0 else none

/- ### Formatter: format_deadline, dt.strftime("%b %d, %Y, %H:%M") -/

def monthAbbr : Nat → List Char
  | 1 => "Jan".data | 2 => "Feb".data | 3 => "Mar".data | 4 => "Apr".data
  | 5 => "May".data | 6 => "Jun".data | 7 => "Jul".data | 8 => "Aug".data
  | 9 => "Sep".data | 10 => "Oct".data | 11 => "Nov".data | 12 => "Dec".data
  | _ => []

/-- format_deadline (source lines 499-509): "Mon DD, YYYY, HH:mm". -/
def format_deadline (d : PyDateTime) : String :=
  String.mk (monthAbbr d.month ++ " ".data ++ pad2 d.day ++ ", ".data ++
    pad4 d.year ++ ", ".data ++ pad2 d.hour ++ ":".data ++ pad2 d.minute)

/- ### A small backtracking regex engine

Each Python pattern in the source is transcribed into combinators below.
A pattern is a CPS matcher: given the text, a position, the capture
list so far and a continuation, it tries every way of matching at that
position (longest first for greedy pieces, left alternative first), calling
the continuation on each, exactly as CPython's backtracking engine does.
re.search tries start positions left to right. -/

structure Cap where
  idx : Nat
  start : Nat
  stop : Nat
deriving Repr, DecidableEq

abbrev Caps := List Cap
abbrev Cont := Nat → Caps → Option Caps
abbrev Pat := List Char → Nat → Caps → Cont → Option Caps

/-- Does the literal word w occur at the head of rest? -/
def matchesAt : List Char → List Char → Bool
  | _, [] => true
  | [], _ :: _ => false
  | c :: cr, w :: wr => c = w && matchesAt cr wr

/-- A literal string. -/
def pLit (w : List Char) : Pat := fun s i cs k =>
  if matchesAt (s.drop i) w then k (i + w.length) cs else none

/-- A single character from a class. -/
def pCls (f : Char → Bool) : Pat := fun s i cs k =>
  match s.get? i with
  | some c => if f c then k (i + 1) cs else none
  | none => none

/-- The empty pattern. -/
def pEmpty : Pat := fun _ i cs k => k i cs

def pSeq (a b : Pat) : Pat := fun s i cs k => a s i cs (fun j cs₂ => b s j cs₂ k)

def pSeqs (l : List Pat) : Pat := l.foldr pSeq pEmpty

/-- Alternation: left alternative preferred, as in the regex engine. -/
def pAlt (a b : Pat) : Pat := fun s i cs k =>
  match a s i cs k with
  | some r => some r
  | none => b s i cs k

def pAlts (l : List Pat) : Pat := l.foldr pAlt (fun _ _ _ _ => none)

/-- Greedy option (?:a)? : try with a first, then without. -/
def pOpt (a : Pat) : Pat := fun s i cs k =>
  match a s i cs k with
  | some r => some r
  | none => k i cs

/-- A capturing group (g) around a pattern. -/
def pCap (g : Nat) (a : Pat) : Pat := fun s i cs k =>
  a s i cs (fun j cs₂ => k j (⟨g, i, j⟩ :: cs₂))

/-- Length of the maximal run of class characters from position i. -/
def runLen (s : List Char) (i : Nat) (f : Char → Bool) : Nat :=
  ((s.drop i).takeWhile f).length

/-- Try consumed lengths base + cnt, base + cnt - 1, ..., base (greedy). -/
def tryLens (k : Cont) (cs : Caps) (i base : Nat) : Nat → Option Caps
  | 0 => k (i + base) cs
  | n + 1 =>
    match k (i + base + (n + 1)) cs with
    | some r => some r
    | none => tryLens k cs i base n

/-- Greedy f+ over a character class (regex one-or-more). -/
def pPlus (f : Char → Bool) : Pat := fun s i cs k =>
  let r := runLen s i f
  if r = 0 then none else tryLens k cs i 1 (r - 1)

/-- Greedy f* over a character class (regex zero-or-more). -/
def pStar (f : Char → Bool) : Pat := fun s i cs k =>
  tryLens k cs i 0 (runLen s i f)

/-- regex \b: word boundary between \w and non-\w (or a string edge). -/
def pWordB : Pat := fun s i cs k =>
  let before := match i with
    | 0 => false
    | j + 1 => match s.get? j with | some c => isWordC c | none => false
  let after := match s.get? i with | some c => isWordC c | none => false
  if before ≠ after then k i cs else none

/-- Negative lookahead (?!a). -/
def pNegLA (a : Pat) : Pat := fun s i cs k =>
  match a s i cs (fun _ cs₂ => some cs₂) with
  | some _ => none
  | none => k i cs

/-- re.search scanning loop: first start position (left to right) at which
the whole pattern matches; the fuel is the number of start positions. -/
def searchFrom (p : Pat) (s : List Char) : Nat → Nat → Option Caps
  | _, 0 => none
  | i, fuel + 1 =>
    match p s i [] (fun _ cs => some cs) with
    | some cs => some cs
    | none => searchFrom p s (i + 1) fuel

def reSearch (p : Pat) (s : List Char) : Option Caps :=
  searchFrom p s 0 (s.length + 1)

def hasPat (p : Pat) (s : List Char) : Bool := (reSearch p s).isSome

/-- Value of capture group g (None when the group did not participate). -/
def grp (s : List Char) (cs : Caps) (g : Nat) : Option (List Char) :=
  match cs.find? (fun c => c.idx = g) with
  | some c => some ((s.drop c.start).take (c.stop - c.start))
  | none => none

/-- Is there a match of p ending exactly at position tgt (scanning every
start position at or before tgt)?  This is how a look-behind tests the text
preceding the current position. -/
def matchEndFrom (p : Pat) (s : List Char) (tgt : Nat) : Nat → Nat → Bool
  | _, 0 => false
  | st, fuel + 1 =>
    match p s st [] (fun j cs => if j = tgt then some cs else none) with
    | some _ => true
    | none => matchEndFrom p s tgt (st + 1) fuel

def matchEndingAt (p : Pat) (s : List Char) (tgt : Nat) : Bool :=
  matchEndFrom p s tgt 0 (tgt + 1)

/-- Negative look-behind (?<!a). -/
def pNegLB (a : Pat) : Pat := fun s i cs k =>
  if matchEndingAt a s i then none else k i cs

/- ### Shorthands used by the transcriptions -/

def wsP : Pat := pPlus isWs
def wsS : Pat := pStar isWs
def dig : Pat := pCls isDigitC

/-- (\d{1,2}) greedy: prefer two digits, fall back to one. -/
def dig12 : Pat := pAlt (pSeq dig dig) dig

/-- (?::(\d{2}))? with the minutes in capture group g. -/
def optColonMin (g : Nat) : Pat :=
  pOpt (pSeq (pLit ":".data) (pCap g (pSeq dig dig)))

/-- (am|pm) in capture group g. -/
def capAmPm (g : Nat) : Pat :=
  pCap g (pAlt (pLit "am".data) (pLit "pm".data))

def lit (w : String) : Pat := pLit w.data

/- ### Transcriptions of the regexes of normalize_deadline

Each definition carries the original pattern.  \b is pWordB, \s+ is wsP,
\s* is wsS, (?:x)? is pOpt, alternation order is preserved. -/

/-- Hyphen or en-dash, the class [-–] of the range pattern. -/
def isDashC (c : Char) : Bool := c.toNat = 45 || c.toNat = 8211

/-- end\s+of\s : the look-behind text of the three broken patterns. -/
def endOfLB : Pat := pSeqs [lit "end", wsP, lit "of", pCls isWs]

/-- end\s+of\s+the\s : second look-behind of the quarter pattern. -/
def endOfTheLB : Pat := pSeqs [lit "end", wsP, lit "of", wsP, lit "the", pCls isWs]

/-- The ambiguity list of source lines 72-85, in order. -/
inductive AmbigPat where
  | nextWeek | earlyNextWeek | laterThisMonth | thisQuarter
  | asap | immediately | earliestConvenience | around | sometime | roughly
  | numRange | byTomorrow
deriving Repr, DecidableEq

def ambiguous_patterns : List AmbigPat :=
  [.nextWeek, .earlyNextWeek, .laterThisMonth, .thisQuarter,
   .asap, .immediately, .earliestConvenience, .around, .sometime, .roughly,
   .numRange, .byTomorrow]

/-- The ambiguity patterns with the semantics their in-source comments
describe.  For the nine patterns CPython accepts this is the literal
pattern; for the three with a variable-width look-behind
(lines 73, 75, 76) it is the look-behind semantics the comments state,
as the third-party regex module would execute them. -/
def ambigMatch : AmbigPat → List Char → Bool
  -- r'(?<!end\s+of\s)\bnext\s+week\b'
  | .nextWeek, t => hasPat (pSeqs [pNegLB endOfLB, pWordB, lit "next", wsP, lit "week", pWordB]) t
  -- r'\bearly\s+next\s+week\b'
  | .earlyNextWeek, t => hasPat (pSeqs [pWordB, lit "early", wsP, lit "next", wsP, lit "week", pWordB]) t
  -- r'(?<!end\s+of\s)\blater\s+this\s+month\b'
  | .laterThisMonth, t => hasPat (pSeqs [pNegLB endOfLB, pWordB, lit "later", wsP, lit "this", wsP, lit "month", pWordB]) t
  -- r'(?<!end\s+of\s)(?<!end\s+of\s+the\s)\bthis\s+quarter\b'
  | .thisQuarter, t => hasPat (pSeqs [pNegLB endOfLB, pNegLB endOfTheLB, pWordB, lit "this", wsP, lit "quarter", pWordB]) t
  -- r'\basap\b'
  | .asap, t => hasPat (pSeqs [pWordB, lit "asap", pWordB]) t
  -- r'\bimmediately\b'
  | .immediately, t => hasPat (pSeqs [pWordB, lit "immediately", pWordB]) t
  -- r'\bat\s+your\s+earliest\s+convenience\b'
  | .earliestConvenience, t => hasPat (pSeqs [pWordB, lit "at", wsP, lit "your", wsP, lit "earliest", wsP, lit "convenience", pWordB]) t
  -- r'\baround\b'
  | .around, t => hasPat (pSeqs [pWordB, lit "around", pWordB]) t
  -- r'\bsometime\b'
  | .sometime, t => hasPat (pSeqs [pWordB, lit "sometime", pWordB]) t
  -- r'\broughly\b'
  | .roughly, t => hasPat (pSeqs [pWordB, lit "roughly", pWordB]) t
  -- r'\d+[-–]\d+'
  | .numRange, t => hasPat (pSeqs [pPlus isDigitC, pCls isDashC, pPlus isDigitC]) t
  -- r'\bby\s+tomorrow\b(?!\s+(morning|afternoon|evening|noon|\d))'
  | .byTomorrow, t => hasPat (pSeqs [pWordB, lit "by", wsP, lit "tomorrow", pWordB,
      pNegLA (pSeq wsP (pAlts [lit "morning", lit "afternoon", lit "evening", lit "noon", dig]))]) t

/-- re.search on one ambiguity pattern, as CPython executes it: the three
patterns whose look-behind contains \s+ do not compile
("look-behind requires fixed-width pattern"), so re.search raises re.error
regardless of the text. -/
def ambigSearchLiteral : AmbigPat → List Char → Except PyExc Bool
  | .nextWeek, _ => .error .reError
  | .laterThisMonth, _ => .error .reError
  | .thisQuarter, _ => .error .reError
  | p, t => .ok (ambigMatch p t)

/-- The same loop with the three broken patterns replaced by the semantics
their comments describe (the repaired classifier). -/
def ambigSearchRepaired (p : AmbigPat) (t : List Char) : Except PyExc Bool :=
  .ok (ambigMatch p t)

/-- The for-loop of source lines 87-90: first pattern that matches wins;
a raised re.error propagates. -/
def gateLoop (f : AmbigPat → List Char → Except PyExc Bool) (t : List Char) :
    List AmbigPat → Except PyExc Bool
  | [] => .ok false
  | p :: ps =>
    match f p t with
    | .error e => .error e
    | .ok true => .ok true
    | .ok false => gateLoop f t ps

def gateLiteral (t : List Char) : Except PyExc Bool :=
  gateLoop ambigSearchLiteral t ambiguous_patterns

def gateRepaired (t : List Char) : Except PyExc Bool :=
  gateLoop ambigSearchRepaired t ambiguous_patterns

/- Today with explicit time, lines 94-103. -/

/-- r'\btoday\s+(?:at\s+)?(\d{1,2})(?::(\d{2}))?\s*(am|pm)?' -/
def todayT1 : Pat :=
  pSeqs [pWordB, lit "today", wsP, pOpt (pSeq (lit "at") wsP),
    pCap 1 dig12, optColonMin 2, wsS, pOpt (capAmPm 3)]

/-- r'(?:by\s+)?(\d{1,2})(?::(\d{2}))?\s*(am|pm)?\s+today\b' -/
def todayT2 : Pat :=
  pSeqs [pOpt (pSeq (lit "by") wsP), pCap 1 dig12, optColonMin 2, wsS,
    pOpt (capAmPm 3), wsP, lit "today", pWordB]

/-- r'\btoday\b(?!\s+\d)' (line 125): standalone today. -/
def todayBare : Pat :=
  pSeqs [pWordB, lit "today", pWordB, pNegLA (pSeq wsP dig)]

/-- The eod_patterns list of lines 120-123: \beod\b, \bend\s+of\s+day\b,
\bcob\b, \bclose\s+of\s+business\b, \btonight\b. -/
def eod_patterns : List Pat :=
  [pSeqs [pWordB, lit "eod", pWordB],
   pSeqs [pWordB, lit "end", wsP, lit "of", wsP, lit "day", pWordB],
   pSeqs [pWordB, lit "cob", pWordB],
   pSeqs [pWordB, lit "close", wsP, lit "of", wsP, lit "business", pWordB],
   pSeqs [pWordB, lit "tonight", pWordB]]

/-- r'\bend\s+of\s+today\b' and r'\bby\s+the\s+end\s+of\s+today\b' (136). -/
def endOfTodayP : Pat :=
  pSeqs [pWordB, lit "end", wsP, lit "of", wsP, lit "today", pWordB]

def byTheEndOfTodayP : Pat :=
  pSeqs [pWordB, lit "by", wsP, lit "the", wsP, lit "end", wsP, lit "of", wsP, lit "today", pWordB]

/-- r'\bend\s+of\s+tomorrow\b', r'\bby\s+the\s+end\s+of\s+tomorrow\b',
r'\btomorrow\s+eod\b' (142-144). -/
def endOfTomorrowP : Pat :=
  pSeqs [pWordB, lit "end", wsP, lit "of", wsP, lit "tomorrow", pWordB]

def byTheEndOfTomorrowP : Pat :=
  pSeqs [pWordB, lit "by", wsP, lit "the", wsP, lit "end", wsP, lit "of", wsP, lit "tomorrow", pWordB]

def tomorrowEodP : Pat :=
  pSeqs [pWordB, lit "tomorrow", wsP, lit "eod", pWordB]

/-- (monday|tuesday|wednesday|thursday|friday|saturday|sunday). -/
def weekdayAlt : Pat :=
  pAlts [lit "monday", lit "tuesday", lit "wednesday", lit "thursday",
    lit "friday", lit "saturday", lit "sunday"]

/-- r'(?:end\s+of\s+|by\s+)?(monday|...|sunday)\s+eod\b' (151-154). -/
def endOfWeekdayP1 : Pat :=
  pSeqs [pOpt (pAlt (pSeqs [lit "end", wsP, lit "of", wsP]) (pSeq (lit "by") wsP)),
    pCap 1 weekdayAlt, wsP, lit "eod", pWordB]

/-- r'\bend\s+of\s+(monday|...|sunday)\b' (156-159). -/
def endOfWeekdayP2 : Pat :=
  pSeqs [pWordB, lit "end", wsP, lit "of", wsP, pCap 1 weekdayAlt, pWordB]

/-- The four end-of-this-week triggers of lines 181-184. -/
def endOfThisWeekP : Pat :=
  pSeqs [pWordB, lit "end", wsP, lit "of", wsP, lit "this", wsP, lit "week", pWordB]

def byTheEndOfThisWeekP : Pat :=
  pSeqs [pWordB, lit "by", wsP, lit "the", wsP, lit "end", wsP, lit "of", wsP, lit "this", wsP, lit "week", pWordB]

def eowP : Pat := pSeqs [pWordB, lit "eow", pWordB]

def beforeWeekEndsP : Pat :=
  pSeqs [pWordB, lit "before", wsP, lit "the", wsP, lit "week", wsP, lit "ends", pWordB]

/-- r'\bend\s+of\s+next\s+week\b' (190). -/
def endOfNextWeekP : Pat :=
  pSeqs [pWordB, lit "end", wsP, lit "of", wsP, lit "next", wsP, lit "week", pWordB]

/-- r'\bend\s+of\s+this\s+month\b' and the by-the variant (196-197). -/
def endOfThisMonthP : Pat :=
  pSeqs [pWordB, lit "end", wsP, lit "of", wsP, lit "this", wsP, lit "month", pWordB]

def byTheEndOfThisMonthP : Pat :=
  pSeqs [pWordB, lit "by", wsP, lit "the", wsP, lit "end", wsP, lit "of", wsP, lit "this", wsP, lit "month", pWordB]

/-- r'\bend\s+of\s+next\s+month\b' and the by-the variant (203-204). -/
def endOfNextMonthP : Pat :=
  pSeqs [pWordB, lit "end", wsP, lit "of", wsP, lit "next", wsP, lit "month", pWordB]

def byTheEndOfNextMonthP : Pat :=
  pSeqs [pWordB, lit "by", wsP, lit "the", wsP, lit "end", wsP, lit "of", wsP, lit "next", wsP, lit "month", pWordB]

/-- The three quarter triggers of lines 210-212. -/
def endOfThisQuarterP : Pat :=
  pSeqs [pWordB, lit "end", wsP, lit "of", wsP, lit "this", wsP, lit "quarter", pWordB]

def endOfTheQuarterP : Pat :=
  pSeqs [pWordB, lit "end", wsP, lit "of", wsP, lit "the", wsP, lit "quarter", pWordB]

def byTheEndOfThisQuarterP : Pat :=
  pSeqs [pWordB, lit "by", wsP, lit "the", wsP, lit "end", wsP, lit "of", wsP, lit "this", wsP, lit "quarter", pWordB]

/-- r'\btomorrow\s+(?:at\s+)?(\d{1,2})(?::(\d{2}))?\s*(am|pm|noon|morning|afternoon|evening)?' (219-222). -/
def tomorrowT1 : Pat :=
  pSeqs [pWordB, lit "tomorrow", wsP, pOpt (pSeq (lit "at") wsP),
    pCap 1 dig12, optColonMin 2, wsS,
    pOpt (pCap 3 (pAlts [lit "am", lit "pm", lit "noon", lit "morning", lit "afternoon", lit "evening"]))]

/-- r'(?:by\s+)?(\d{1,2})(?::(\d{2}))?\s*(am|pm)?\s+tomorrow\b' (225-228). -/
def tomorrowT2 : Pat :=
  pSeqs [pOpt (pSeq (lit "by") wsP), pCap 1 dig12, optColonMin 2, wsS,
    pOpt (capAmPm 3), wsP, lit "tomorrow", pWordB]

/-- r'\btomorrow\s+(morning|noon|afternoon|evening)\b' (245). -/
def tomorrowTodP : Pat :=
  pSeqs [pWordB, lit "tomorrow", wsP,
    pCap 1 (pAlts [lit "morning", lit "noon", lit "afternoon", lit "evening"]), pWordB]

/-- (jan|feb|mar|apr|may|jun|jul|aug|sep|oct|nov|dec). -/
def monthAlt : Pat :=
  pAlts [lit "jan", lit "feb", lit "mar", lit "apr", lit "may", lit "jun",
    lit "jul", lit "aug", lit "sep", lit "oct", lit "nov", lit "dec"]

/-- r'(jan|...|dec)[a-z]*\s+(\d{1,2})\s+at\s+(\d{1,2})(?::(\d{2}))?\s*(am|pm)?' (261-264). -/
def dateTimeP1 : Pat :=
  pSeqs [pCap 1 monthAlt, pStar isLowerAZ, wsP, pCap 2 dig12, wsP,
    lit "at", wsP, pCap 3 dig12, optColonMin 4, wsS, pOpt (capAmPm 5)]

/-- r'(jan|...|dec)[a-z]*\s+(\d{1,2})(?:,?\s+|,\s+)(\d{1,2})(?::(\d{2}))?\s*(am|pm)?' (266-270). -/
def dateTimeP2 : Pat :=
  pSeqs [pCap 1 monthAlt, pStar isLowerAZ, wsP, pCap 2 dig12,
    pAlt (pSeq (pOpt (lit ",")) wsP) (pSeq (lit ",") wsP),
    pCap 3 dig12, optColonMin 4, wsS, pOpt (capAmPm 5)]

/-- r'(jan|...|dec)[a-z]*\s+(\d{1,2})\b' (301-303). -/
def dateOnlyP : Pat :=
  pSeqs [pCap 1 monthAlt, pStar isLowerAZ, wsP, pCap 2 dig12, pWordB]

/-- r'(?:by\s+|next\s+)?(monday|...|sunday)(?:\s+(?:at\s+)?(\d{1,2})(?::(\d{2}))?\s*(am|pm)?)?' (327-330). -/
def weekdayP1 : Pat :=
  pSeqs [pOpt (pAlt (pSeq (lit "by") wsP) (pSeq (lit "next") wsP)),
    pCap 1 weekdayAlt,
    pOpt (pSeqs [wsP, pOpt (pSeq (lit "at") wsP), pCap 2 dig12, optColonMin 3, wsS, pOpt (capAmPm 4)])]

/-- r'(?:by\s+)?(\d{1,2})(?::(\d{2}))?\s*(am|pm)?\s+(monday|...|sunday)\b' (333-336). -/
def weekdayP2 : Pat :=
  pSeqs [pOpt (pSeq (lit "by") wsP), pCap 1 dig12, optColonMin 2, wsS,
    pOpt (capAmPm 3), wsP, pCap 4 weekdayAlt, pWordB]

/- ### Lookup tables of the source -/

/-- The weekday dictionary of lines 163-166 and 355-358. -/
def weekdayIdx (w : List Char) : Option Nat :=
  if w = "monday".data then some 0
  else if w = "tuesday".data then some 1
  else if w = "wednesday".data then some 2
  else if w = "thursday".data then some 3
  else if w = "friday".data then some 4
  else if w = "saturday".data then some 5
  else if w = "sunday".data then some 6
  else none

/-- The month dictionary of lines 284-287 and 309-312 (the caller applies
the .get default, the anchor's month). -/
def monthIdx (w : List Char) : Option Nat :=
  if w = "jan".data then some 1
  else if w = "feb".data then some 2
  else if w = "mar".data then some 3
  else if w = "apr".data then some 4
  else if w = "may".data then some 5
  else if w = "jun".data then some 6
  else if w = "jul".data then some 7
  else if w = "aug".data then some 8
  else if w = "sep".data then some 9
  else if w = "oct".data then some 10
  else if w = "nov".data then some 11
  else if w = "dec".data then some 12
  else none

/-- The am/pm adjustment used identically in every time-parsing branch:
pm adds 12 below noon, 12am becomes 0, any other modifier (noon, morning,
...) leaves the parsed hour unchanged. -/
def applyAmPm (h : Nat) (md : Option (List Char)) : Nat :=
  if md = some "pm".data && h < 12 then h + 12
  else if md = some "am".data && h = 12 then 0
  else h

/- ### Calendar helpers of the source (module-level functions) -/

/-- The while-loop of lines 439-441: subtract 12 from the month and carry
into the year until the month is at most 12.  Each iteration lowers the
month by 12, so the month itself bounds the iteration count; the loop is
written with that bound as structural fuel. -/
def monthCarryGo : Nat → Nat → Nat → Nat × Nat
  | 0, ty, tm => (ty, tm)
  | f + 1, ty, tm => if tm > 12 then monthCarryGo f (ty + 1) (tm - 12) else (ty, tm)

def monthCarry (ty tm : Nat) : Nat × Nat := monthCarryGo tm ty tm

/-- calculate_end_of_week (lines 396-419).  settings.work_end_hour is the
explicit weh argument. -/
def calculate_end_of_week (ref_dt : PyDateTime) (weeks_ahead : Nat) (weh : Nat) :
    Except PyExc PyDateTime :=
  let current_weekday := pyWeekday ref_dt
  let days_to_friday := (4 + 7 - current_weekday) % 7
  -- line 412: this guard can never fire ((4 - wd) % 7 = 0 only when wd = 4)
  -- and it reassigns 0 to 0; kept as written
  let days_to_friday := if days_to_friday = 0 && current_weekday ≠ 4 then 0 else days_to_friday
  let total_days := days_to_friday + weeks_ahead * 7
  mkChecked { addDays ref_dt total_days with hour := weh, minute := 0, second := 0, micro := 0 }

/-- calculate_end_of_month (lines 422-454). -/
def calculate_end_of_month (ref_dt : PyDateTime) (months_ahead : Nat) (weh : Nat) :
    Except PyExc PyDateTime :=
  let p := monthCarry ref_dt.year (ref_dt.month + months_ahead)
  let last_day := daysInMonth p.1 p.2
  mkChecked { ref_dt with year := p.1, month := p.2, day := last_day, hour := weh, minute := 0, second := 0, micro := 0 }

/-- calculate_end_of_quarter (lines 457-496). -/
def calculate_end_of_quarter (ref_dt : PyDateTime) (weh : Nat) :
    Except PyExc PyDateTime :=
  let q := if ref_dt.month ≤ 3 then (3, 31)
    else if ref_dt.month ≤ 6 then (6, 30)
    else if ref_dt.month ≤ 9 then (9, 30)
    else (12, 31)
  mkChecked { ref_dt with month := q.1, day := q.2, hour := weh, minute := 0, second := 0, micro := 0 }

/- ### The rule cascade

Each branch returns none to fall through to the next source statement and
some r to model an early return of r.  The final fallback is "TBD". -/

/-- Lines 92-117: today with an explicit clock time (both orders). -/
def branch_today_time (t : List Char) (ref : PyDateTime) : Option (Except PyExc String) :=
  let m := match reSearch todayT1 t with
    | some c => some c
    | none => reSearch todayT2 t
  match m with
  | none => none
  | some caps =>
    let hour := parseNat ((grp t caps 1).getD [])
    let minute := match grp t caps 2 with | some d => parseNat d | none => 0
    let hour := applyAmPm hour (grp t caps 3)
    some ((mkChecked { ref with hour := hour, minute := minute, second := 0, micro := 0 }).map format_deadline)

/-- Lines 124-127: standalone today. -/
def branch_today_bare (t : List Char) (ref : PyDateTime) (weh : Nat) : Option (Except PyExc String) :=
  if hasPat todayBare t then
    some ((mkChecked { ref with hour := weh, minute := 0, second := 0, micro := 0 }).map format_deadline)
  else none

/-- Lines 129-132: the bare EOD/COB loop. -/
def branch_eod (t : List Char) (ref : PyDateTime) (weh : Nat) : Option (Except PyExc String) :=
  if eod_patterns.any (fun p => hasPat p t) then
    some ((mkChecked { ref with hour := weh, minute := 0, second := 0, micro := 0 }).map format_deadline)
  else none

/-- Lines 135-139: end of today. -/
def branch_end_of_today (t : List Char) (ref : PyDateTime) (weh : Nat) : Option (Except PyExc String) :=
  if hasPat endOfTodayP t || hasPat byTheEndOfTodayP t then
    some ((mkChecked { ref with hour := weh, minute := 0, second := 0, micro := 0 }).map format_deadline)
  else none

/-- Lines 141-148: end of tomorrow / tomorrow EOD. -/
def branch_end_of_tomorrow (t : List Char) (ref : PyDateTime) (weh : Nat) : Option (Except PyExc String) :=
  if hasPat endOfTomorrowP t || hasPat byTheEndOfTomorrowP t || hasPat tomorrowEodP t then
    some ((mkChecked { addDays ref 1 with hour := weh, minute := 0, second := 0, micro := 0 }).map format_deadline)
  else none

/-- Lines 150-178: end of a named weekday. -/
def branch_end_of_weekday (t : List Char) (ref : PyDateTime) (weh : Nat) : Option (Except PyExc String) :=
  let m := match reSearch endOfWeekdayP1 t with
    | some c => some c
    | none => reSearch endOfWeekdayP2 t
  match m with
  | none => none
  | some caps =>
    match weekdayIdx ((grp t caps 1).getD []) with
    | none => none
    | some tw =>
      let da := (tw + 7 - pyWeekday ref) % 7
      let da := if da = 0 then 7 else da
      some ((mkChecked { addDays ref da with hour := weh, minute := 0, second := 0, micro := 0 }).map format_deadline)

/-- Lines 180-187: end of this week / EOW. -/
def branch_eow (t : List Char) (ref : PyDateTime) (weh : Nat) : Option (Except PyExc String) :=
  if hasPat endOfThisWeekP t || hasPat byTheEndOfThisWeekP t || hasPat eowP t || hasPat beforeWeekEndsP t then
    some ((calculate_end_of_week ref 0 weh).map format_deadline)
  else none

/-- Lines 189-193: end of next week. -/
def branch_end_of_next_week (t : List Char) (ref : PyDateTime) (weh : Nat) : Option (Except PyExc String) :=
  if hasPat endOfNextWeekP t then
    some ((calculate_end_of_week ref 1 weh).map format_deadline)
  else none

/-- Lines 195-200: end of this month. -/
def branch_end_of_this_month (t : List Char) (ref : PyDateTime) (weh : Nat) : Option (Except PyExc String) :=
  if hasPat endOfThisMonthP t || hasPat byTheEndOfThisMonthP t then
    some ((calculate_end_of_month ref 0 weh).map format_deadline)
  else none

/-- Lines 202-207: end of next month. -/
def branch_end_of_next_month (t : List Char) (ref : PyDateTime) (weh : Nat) : Option (Except PyExc String) :=
  if hasPat endOfNextMonthP t || hasPat byTheEndOfNextMonthP t then
    some ((calculate_end_of_month ref 1 weh).map format_deadline)
  else none

/-- Lines 209-215: end of this/the quarter. -/
def branch_end_of_quarter (t : List Char) (ref : PyDateTime) (weh : Nat) : Option (Except PyExc String) :=
  if hasPat endOfThisQuarterP t || hasPat endOfTheQuarterP t || hasPat byTheEndOfThisQuarterP t then
    some ((calculate_end_of_quarter ref weh).map format_deadline)
  else none

/-- Lines 217-242: tomorrow with an explicit clock time (both orders). -/
def branch_tomorrow_time (t : List Char) (ref : PyDateTime) : Option (Except PyExc String) :=
  let m := match reSearch tomorrowT1 t with
    | some c => some c
    | none => reSearch tomorrowT2 t
  match m with
  | none => none
  | some caps =>
    let hour := parseNat ((grp t caps 1).getD [])
    let minute := match grp t caps 2 with | some d => parseNat d | none => 0
    let hour := applyAmPm hour (grp t caps 3)
    some ((mkChecked { addDays ref 1 with hour := hour, minute := minute, second := 0, micro := 0 }).map format_deadline)

/-- Lines 244-257: tomorrow with a named time of day. -/
def branch_tomorrow_tod (t : List Char) (ref : PyDateTime) : Option (Except PyExc String) :=
  match reSearch tomorrowTodP t with
  | none => none
  | some caps =>
    let tod := (grp t caps 1).getD []
    let hour := if tod = "morning".data then 9
      else if tod = "noon".data then 12
      else if tod = "afternoon".data then 15
      else if tod = "evening".data then 18
      else 12
    some ((mkChecked { addDays ref 1 with hour := hour, minute := 0, second := 0, micro := 0 }).map format_deadline)

/-- Lines 259-298: explicit month/day with a clock time, with year
inference against year_ref; a ValueError from either construction is
caught and turned into "TBD". -/
def branch_date_time (t : List Char) (ref year_ref : PyDateTime) : Option (Except PyExc String) :=
  let m := match reSearch dateTimeP1 t with
    | some c => some c
    | none => reSearch dateTimeP2 t
  match m with
  | none => none
  | some caps =>
    let day := parseNat ((grp t caps 2).getD [])
    let hour := parseNat ((grp t caps 3).getD [])
    let minute := match grp t caps 4 with | some d => parseNat d | none => 0
    let hour := applyAmPm hour (grp t caps 5)
    let month := (monthIdx ((grp t caps 1).getD [])).getD ref.month
    let year := year_ref.year
    some (match mkChecked { ref with year := year, month := month, day := day, hour := hour, minute := minute, second := 0, micro := 0 } with
      | .error _ => .ok "TBD"
      | .ok dl =>
        if pyLt dl year_ref then
          match mkChecked { dl with year := year + 1 } with
          | .error _ => .ok "TBD"
          | .ok dl₂ => .ok (format_deadline dl₂)
        else .ok (format_deadline dl))

/-- Lines 300-323: explicit month/day without a time; hour defaults to
work_end_hour; same year inference and ValueError handling. -/
def branch_date_only (t : List Char) (ref year_ref : PyDateTime) (weh : Nat) : Option (Except PyExc String) :=
  match reSearch dateOnlyP t with
  | none => none
  | some caps =>
    let day := parseNat ((grp t caps 2).getD [])
    let month := (monthIdx ((grp t caps 1).getD [])).getD ref.month
    let year := year_ref.year
    some (match mkChecked { ref with year := year, month := month, day := day, hour := weh, minute := 0, second := 0, micro := 0 } with
      | .error _ => .ok "TBD"
      | .ok dl =>
        if pyLt dl year_ref then
          match mkChecked { dl with year := year + 1 } with
          | .error _ => .ok "TBD"
          | .ok dl₂ => .ok (format_deadline dl₂)
        else .ok (format_deadline dl))

/-- Lines 325-389: weekday with optional time.  When the weekday-first
pattern fails, the time-first pattern is tried and its groups reordered
exactly as the MockMatch class does (weekday, hour, minute, am/pm). -/
def branch_weekday (t : List Char) (ref : PyDateTime) (weh : Nat) : Option (Except PyExc String) :=
  let gm := match reSearch weekdayP1 t with
    | some caps => some (grp t caps 1, grp t caps 2, grp t caps 3, grp t caps 4)
    | none =>
      match reSearch weekdayP2 t with
      | some caps => some (grp t caps 4, grp t caps 1, grp t caps 2, grp t caps 3)
      | none => none
  match gm with
  | none => none
  | some (wn, hs, ms, ap) =>
    match wn.bind weekdayIdx with
    | none => none
    | some tw =>
      let da := (tw + 7 - pyWeekday ref) % 7
      let da := if da = 0 then 7 else da
      let target_date := addDays ref da
      match hs with
      | some hstr =>
        let minute := match ms with | some d => parseNat d | none => 0
        let hour := applyAmPm (parseNat hstr) ap
        some ((mkChecked { target_date with hour := hour, minute := minute, second := 0, micro := 0 }).map format_deadline)
      | none =>
        some ((mkChecked { target_date with hour := weh, minute := 0, second := 0, micro := 0 }).map format_deadline)

/-- The ordered cascade after the ambiguity gate, lines 92-393: first
branch that fires returns; otherwise "TBD". -/
def cascade (t : List Char) (ref year_ref : PyDateTime) (weh : Nat) : Except PyExc String :=
  ((branch_today_time t ref <|>
    branch_today_bare t ref weh <|>
    branch_eod t ref weh <|>
    branch_end_of_today t ref weh <|>
    branch_end_of_tomorrow t ref weh <|>
    branch_end_of_weekday t ref weh <|>
    branch_eow t ref weh <|>
    branch_end_of_next_week t ref weh <|>
    branch_end_of_this_month t ref weh <|>
    branch_end_of_next_month t ref weh <|>
    branch_end_of_quarter t ref weh <|>
    branch_tomorrow_time t ref <|>
    branch_tomorrow_tod t ref <|>
    branch_date_time t ref year_ref <|>
    branch_date_only t ref year_ref weh <|>
    branch_weekday t ref weh).getD (.ok "TBD"))

/- ### The top-level function -/

/-- Lines 49-61: resolve the reference datetime.  A missing anchor reads
the ambient clock (modelled by the explicit now argument) in the resolved
zone; a naive anchor gets the zone attached; an unknown zone identifier
falls back to UTC in both cases. -/
def resolveRef (now : PyDateTime) (tz : String) : Option PyDateTime → PyDateTime
  | none => { now with tzOffset := some ((zoneInfo tz).getD 0) }
  | some r =>
    if r.tzOffset = none then { r with tzOffset := some ((zoneInfo tz).getD 0) } else r

/-- Lines 63-66: year_ref is sent_date when given, else the anchor; a
naive sent_date inherits the anchor's zone. -/
def resolveYearRef (ref : PyDateTime) : Option PyDateTime → PyDateTime
  | none => ref
  | some s => if s.tzOffset = none then { s with tzOffset := ref.tzOffset } else s

/-- normalize_deadline (lines 18-393), parameterized by the ambiguity gate.
The ambient inputs of the source are explicit arguments: now is the value
datetime.now would produce, weh is the module global settings.work_end_hour
(src/app/core/config.py, default 17).  A raised exception is .error. -/
def normalize_core (gate : List Char → Except PyExc Bool) (now : PyDateTime) (weh : Nat)
    (text : Option String) (ref_datetime : Option PyDateTime) (tz : String)
    (sent_date : Option PyDateTime) : Except PyExc String :=
  match text with
  | none => .ok "TBD"
  | some t₀ =>
    if t₀ = "" then .ok "TBD"
    else
      let ref := resolveRef now tz ref_datetime
      let year_ref := resolveYearRef ref sent_date
      let t := (pyStrip t₀.data).map pyLowerC
      match gate t with
      | .error e => .error e
      | .ok true => .ok "TBD"
      | .ok false => cascade t ref year_ref weh

/-- The source function as CPython executes it: the first ambiguity
pattern raises re.error whenever the gate runs. -/
def normalize_deadline (now : PyDateTime) (weh : Nat) (text : Option String)
    (ref_datetime : Option PyDateTime) (tz : String) (sent_date : Option PyDateTime) :
    Except PyExc String :=
  normalize_core gateLiteral now weh text ref_datetime tz sent_date

/-- The source function with the three uncompilable classifier patterns
given the semantics their comments describe; everything else identical.
Used to exhibit what the cascade computes past the re.error. -/
def normalize_deadline_repaired (now : PyDateTime) (weh : Nat) (text : Option String)
    (ref_datetime : Option PyDateTime) (tz : String) (sent_date : Option PyDateTime) :
    Except PyExc String :=
  normalize_core gateRepaired now weh text ref_datetime tz sent_date

/- ### Anchors used by the spec's examples -/

/-- Saturday, Oct 21 2023, 10:00, UTC: the anchor of the spec's examples
and of the repository's own test suite. -/
def anchorOct21 : PyDateTime := ⟨2023, 10, 21, 10, 0, 0, 0, some 0⟩

/-- Feb 1 2024, 10:00, UTC (a leap year). -/
def anchorFeb2024 : PyDateTime := ⟨2024, 2, 1, 10, 0, 0, 0, some 0⟩

/-- Feb 1 2025, 10:00, UTC (a common year). -/
def anchorFeb2025 : PyDateTime := ⟨2025, 2, 1, 10, 0, 0, 0, some 0⟩

/- ### General facts about the source as executed -/

/-- The ambiguity loop raises on every text: its first pattern is one of
the three CPython rejects, and the loop consults it before any other. -/
theorem gateLiteral_always_raises (t : List Char) : gateLiteral t = .error .reError := rfl

/-- Every month has at least one day, leap or not. -/
theorem daysInMonth_pos (y m : Nat) : 1 ≤ daysInMonth y m := by
  unfold daysInMonth
  split
  · split <;> omega
  all_goals omega

/-- The month-carry loop is the identity when no carry is needed. -/
theorem monthCarry_of_le (y k : Nat) (h : k ≤ 12) : monthCarry y k = (y, k) := by
  unfold monthCarry
  cases k with
  | zero => rfl
  | succ n =>
    unfold monthCarryGo
    rw [if_neg (by omega)]

/-- One carry: month 13 becomes January of the next year. -/
theorem monthCarry_13 (y : Nat) : monthCarry y 13 = (y + 1, 1) := by
  unfold monthCarry monthCarryGo
  rw [if_pos (by omega)]
  unfold monthCarryGo
  rw [if_neg (by omega)]

/-- calculate_end_of_month is live, importable code unaffected by the
classifier crash.  For every anchor with valid fields and months_ahead at
most 1 it succeeds and returns the carried (year, month) with the day set
to that month's actual length (daysInMonth is leap-aware) at the work-end
hour, as the spec's Calendar Arithmetic section describes. -/
theorem calculate_end_of_month_last_day (ref : PyDateTime) (weh ahead : Nat)
    (hm1 : 1 ≤ ref.month) (hm2 : ref.month ≤ 12) (ha : ahead ≤ 1)
    (hy1 : 1 ≤ ref.year) (hy2 : ref.year + 1 ≤ 9999) (hw : weh ≤ 23) :
    ∃ ty tm, 1 ≤ tm ∧ tm ≤ 12 ∧
      (ty, tm) = monthCarry ref.year (ref.month + ahead) ∧
      calculate_end_of_month ref ahead weh =
        .ok { ref with year := ty, month := tm, day := daysInMonth ty tm, hour := weh, minute := 0, second := 0, micro := 0 } := by
  by_cases hc : ref.month + ahead ≤ 12
  · refine ⟨ref.year, ref.month + ahead, by omega, hc, by rw [monthCarry_of_le _ _ hc], ?_⟩
    unfold calculate_end_of_month
    rw [monthCarry_of_le _ _ hc]
    unfold mkChecked
    rw [if_pos ?_]
    simp only [validDT]
    have := daysInMonth_pos ref.year (ref.month + ahead)
    simp only [Bool.and_eq_true, decide_eq_true_eq]
    omega
  · have h13 : ref.month + ahead = 13 := by omega
    refine ⟨ref.year + 1, 1, by omega, by omega, by rw [h13, monthCarry_13], ?_⟩
    unfold calculate_end_of_month
    rw [h13, monthCarry_13]
    unfold mkChecked
    rw [if_pos ?_]
    simp only [validDT]
    have := daysInMonth_pos (ref.year + 1) 1
    simp only [Bool.and_eq_true, decide_eq_true_eq]
    omega

/- ### Claim theorems -/

/-- C1: the claim says normalize is total, that no exception escapes, and
that None, the empty string and a blank string all yield the sentinel TBD.
On the code: None and the empty string do return TBD, but every other
string (a blank string included) raises re.error inside the ambiguity
loop, because its first pattern has a variable-width look-behind that
CPython's re rejects.  The first conjunct proves the escape is universal. -/
theorem C1_totality :
    (∀ (now : PyDateTime) (weh : Nat) (t₀ : String), t₀ ≠ "" →
      ∀ (r : PyDateTime) (tz : String) (sent : Option PyDateTime),
        normalize_deadline now weh (some t₀) (some r) tz sent = .error .reError) ∧
    normalize_deadline anchorOct21 17 none (some anchorOct21) "UTC" none = .ok "TBD" ∧
    normalize_deadline anchorOct21 17 (some "") (some anchorOct21) "UTC" none = .ok "TBD" := by
  refine ⟨fun now weh t₀ h r tz sent => ?_, rfl, rfl⟩
  have e : normalize_deadline now weh (some t₀) (some r) tz sent =
      if t₀ = "" then Except.ok "TBD" else Except.error PyExc.reError := rfl
  rw [e, if_neg h]

/-- C1 witness: the universal part applied at the blank string of the
claim, which the spec says returns TBD and the code answers with re.error. -/
theorem C1_totality_witness :
    normalize_deadline anchorOct21 17 (some "   ") (some anchorOct21) "UTC" none = .error .reError :=
  C1_totality.1 anchorOct21 17 "   " (by decide) anchorOct21 "UTC" none

/-- C2: the claim says a text matching the ambiguity set always yields TBD
with absolute precedence over any resolvable substring.  On the code such
a text raises re.error instead (first conjunct, at claim input next week).
The second conjunct proves the precedence law on the repaired classifier
(the three uncompilable patterns given their commented semantics): whenever
the gate matches, the result is TBD no matter what else the text contains.
The last conjunct shows the embedded substring of the witness input is
resolvable on its own, so the precedence is not vacuous. -/
theorem C2_ambiguity_precedence :
    normalize_deadline anchorOct21 17 (some "next week") (some anchorOct21) "UTC" none = .error .reError ∧
    (∀ (now : PyDateTime) (weh : Nat) (t₀ : String), t₀ ≠ "" →
      gateRepaired ((pyStrip t₀.data).map pyLowerC) = .ok true →
      ∀ (r : PyDateTime) (tz : String) (sent : Option PyDateTime),
        normalize_deadline_repaired now weh (some t₀) (some r) tz sent = .ok "TBD") ∧
    normalize_deadline_repaired anchorOct21 17 (some "Friday 2pm") (some anchorOct21) "UTC" none = .ok "Oct 27, 2023, 14:00" := by
  refine ⟨rfl, fun now weh t₀ h hg r tz sent => ?_, rfl⟩
  have e : normalize_deadline_repaired now weh (some t₀) (some r) tz sent =
      if t₀ = "" then Except.ok "TBD" else
        match gateRepaired ((pyStrip t₀.data).map pyLowerC) with
        | .error e => .error e
        | .ok true => .ok "TBD"
        | .ok false => cascade ((pyStrip t₀.data).map pyLowerC)
            (resolveRef now tz (some r))
            (resolveYearRef (resolveRef now tz (some r)) sent) weh := rfl
  rw [e, if_neg h, hg]

/-- C2 witness: a text holding both an imprecision marker and a fully
resolvable weekday-plus-time substring is forced to TBD by the gate. -/
theorem C2_ambiguity_precedence_witness :
    normalize_deadline_repaired anchorOct21 17 (some "asap, ideally Friday 2pm") (some anchorOct21) "UTC" none = .ok "TBD" :=
  C2_ambiguity_precedence.2.1 anchorOct21 17 "asap, ideally Friday 2pm" (by decide) rfl anchorOct21 "UTC" none

/-- C3: the claim says tomorrow-EOD and weekday-EOD forms are captured by
the qualified branches (anchor + 1 day, next weekday occurrence) and not by
the bare-EOD rule.  On the code they raise re.error (first conjunct); and
even with the classifier repaired, the bare-EOD loop runs before the
qualified branches and its pattern eod-with-word-boundaries matches the
texts tomorrow EOD and Friday EOD, returning the anchor's own date Oct 21
at 17:00 instead of Oct 22 / Oct 27 — contradicting the source's own
comment that names by Friday EOD as an example for the weekday branch.
Only the end-of spellings reach the qualified branches. -/
theorem C3_qualified_eod :
    normalize_deadline anchorOct21 17 (some "tomorrow EOD") (some anchorOct21) "UTC" none = .error .reError ∧
    normalize_deadline_repaired anchorOct21 17 (some "tomorrow EOD") (some anchorOct21) "UTC" none = .ok "Oct 21, 2023, 17:00" ∧
    normalize_deadline_repaired anchorOct21 17 (some "Friday EOD") (some anchorOct21) "UTC" none = .ok "Oct 21, 2023, 17:00" ∧
    normalize_deadline_repaired anchorOct21 17 (some "end of tomorrow") (some anchorOct21) "UTC" none = .ok "Oct 22, 2023, 17:00" ∧
    normalize_deadline_repaired anchorOct21 17 (some "end of Friday") (some anchorOct21) "UTC" none = .ok "Oct 27, 2023, 17:00" :=
  ⟨rfl, rfl, rfl, rfl, rfl⟩

/-- C4: the claim says time-first and unit-first orderings resolve to the
same result.  On the code both orders raise re.error (first conjunct); and
even with the classifier repaired the orders disagree: the weekday-first
regex matches a weekday name anywhere in the text with its optional time
part empty, so the time-first branch (the MockMatch reordering) is
unreachable and the time is silently dropped, giving work_end_hour instead
of the stated clock time. -/
theorem C4_surface_order :
    normalize_deadline anchorOct21 17 (some "2pm Friday") (some anchorOct21) "UTC" none = .error .reError ∧
    normalize_deadline_repaired anchorOct21 17 (some "Friday 2pm") (some anchorOct21) "UTC" none = .ok "Oct 27, 2023, 14:00" ∧
    normalize_deadline_repaired anchorOct21 17 (some "2pm Friday") (some anchorOct21) "UTC" none = .ok "Oct 27, 2023, 17:00" ∧
    normalize_deadline_repaired anchorOct21 17 (some "Friday 4pm") (some anchorOct21) "UTC" none = .ok "Oct 27, 2023, 16:00" ∧
    normalize_deadline_repaired anchorOct21 17 (some "by 4pm Friday") (some anchorOct21) "UTC" none = .ok "Oct 27, 2023, 17:00" :=
  ⟨rfl, rfl, rfl, rfl, rfl⟩

/-- C5: determinism and purity.  The embedding makes the two ambient reads
of the source explicit: the clock (datetime.now, the now argument) and the
module global settings.work_end_hour (the weh argument, which the claim
counts as part of the context).  With an anchor supplied the result is
independent of the clock, for both the literal function and the repaired
variant; being a Lean function of its arguments, normalize is deterministic
in (text, anchor, tz, sent, work_end_hour). -/
theorem C5_determinism_purity :
    ∀ (now₁ now₂ : PyDateTime) (weh : Nat) (text : Option String) (anchor : PyDateTime)
      (tz : String) (sent : Option PyDateTime),
      normalize_deadline now₁ weh text (some anchor) tz sent =
        normalize_deadline now₂ weh text (some anchor) tz sent ∧
      normalize_deadline_repaired now₁ weh text (some anchor) tz sent =
        normalize_deadline_repaired now₂ weh text (some anchor) tz sent :=
  fun _ _ _ _ _ _ _ => ⟨rfl, rfl⟩

/-- C6: the claim gives the year-disambiguation rule with the example
by Oct 3, 5pm at anchor = sent = Oct 21 2023 resolving to Oct 03, 2024,
17:00.  On the code the call raises re.error (first conjunct).  With the
classifier repaired, the cascade does produce exactly the claimed result
(the candidate Oct 3 2023 17:00 precedes the sent instant, so the year is
advanced), and an impossible calendar date yields TBD through the caught
ValueError rather than an escaping exception. -/
theorem C6_year_disambiguator :
    normalize_deadline anchorOct21 17 (some "by Oct 3, 5pm") (some anchorOct21) "UTC" (some anchorOct21) = .error .reError ∧
    normalize_deadline_repaired anchorOct21 17 (some "by Oct 3, 5pm") (some anchorOct21) "UTC" (some anchorOct21) = .ok "Oct 03, 2024, 17:00" ∧
    normalize_deadline_repaired anchorOct21 17 (some "Feb 30") (some anchorOct21) "UTC" (some anchorOct21) = .ok "TBD" :=
  ⟨rfl, rfl, rfl⟩

/-- C7: the claim gives the weekday next-occurrence rule with the example
Friday 2pm at the Saturday anchor resolving to Oct 27, 2023, 14:00.  On
the code the call raises re.error (first conjunct).  With the classifier
repaired the rule behaves as claimed: next Friday at the stated time, the
work-end default when no time is given, and never the anchor's own date
(Saturday at the Saturday anchor gives Oct 28, seven days ahead). -/
theorem C7_weekday_next_occurrence :
    normalize_deadline anchorOct21 17 (some "Friday 2pm") (some anchorOct21) "UTC" none = .error .reError ∧
    normalize_deadline_repaired anchorOct21 17 (some "Friday 2pm") (some anchorOct21) "UTC" none = .ok "Oct 27, 2023, 14:00" ∧
    normalize_deadline_repaired anchorOct21 17 (some "by Friday") (some anchorOct21) "UTC" none = .ok "Oct 27, 2023, 17:00" ∧
    normalize_deadline_repaired anchorOct21 17 (some "next Wednesday") (some anchorOct21) "UTC" none = .ok "Oct 25, 2023, 17:00" ∧
    normalize_deadline_repaired anchorOct21 17 (some "Saturday") (some anchorOct21) "UTC" none = .ok "Oct 28, 2023, 17:00" :=
  ⟨rfl, rfl, rfl, rfl, rfl⟩

/-- C8: the claim states end-of-month arithmetic (leap-aware last day at
work_end_hour) together with the normalize results at February anchors.
On the code normalize raises re.error (first conjunct).  The module-level
helper calculate_end_of_month itself is live, importable code and computes
the claimed leap-aware last days (fourth and fifth conjuncts); with the
classifier repaired, normalize reaches it and returns the claimed strings. -/
theorem C8_end_of_month :
    normalize_deadline anchorFeb2024 17 (some "end of this month") (some anchorFeb2024) "UTC" none = .error .reError ∧
    normalize_deadline_repaired anchorFeb2024 17 (some "end of this month") (some anchorFeb2024) "UTC" none = .ok "Feb 29, 2024, 17:00" ∧
    normalize_deadline_repaired anchorFeb2025 17 (some "end of this month") (some anchorFeb2025) "UTC" none = .ok "Feb 28, 2025, 17:00" ∧
    calculate_end_of_month anchorFeb2024 0 17 = .ok ⟨2024, 2, 29, 17, 0, 0, 0, some 0⟩ ∧
    calculate_end_of_month anchorOct21 1 17 = .ok ⟨2023, 11, 30, 17, 0, 0, 0, some 0⟩ :=
  ⟨rfl, rfl, rfl, rfl, rfl⟩

/-- C9: the claim states the conservative asymmetry: bare by tomorrow is
ambiguous (TBD) while tomorrow with a time or time-of-day token resolves,
naming tomorrow morning (09:00) and by tomorrow at 5pm (17:00).  On the
code all of these raise re.error (first conjunct).  With the classifier
repaired, bare by tomorrow is TBD and tomorrow morning resolves as claimed,
but by tomorrow at 5pm is also TBD: the negative lookahead of the
by-tomorrow pattern only exempts morning, afternoon, evening, noon, or a
digit immediately after tomorrow, and the word at is none of these —
contradicting the claim's second example. -/
theorem C9_by_tomorrow :
    normalize_deadline anchorOct21 17 (some "by tomorrow") (some anchorOct21) "UTC" none = .error .reError ∧
    normalize_deadline_repaired anchorOct21 17 (some "by tomorrow") (some anchorOct21) "UTC" none = .ok "TBD" ∧
    normalize_deadline_repaired anchorOct21 17 (some "tomorrow morning") (some anchorOct21) "UTC" none = .ok "Oct 22, 2023, 09:00" ∧
    normalize_deadline_repaired anchorOct21 17 (some "by tomorrow at 5pm") (some anchorOct21) "UTC" none = .ok "TBD" :=
  ⟨rfl, rfl, rfl, rfl⟩

/-- C10: the implicit claim reads the month recognizers as prefix matchers,
so the non-month word mayhem followed by a day number is accepted as May.
On the code the call raises re.error (first conjunct); with the classifier
repaired the prefix match fires exactly as the claim describes: May 5 at
work_end_hour, rolled to 2024 because May 5 2023 precedes the anchor. -/
theorem C10_month_token_is_three_letter_head :
    normalize_deadline anchorOct21 17 (some "mayhem 5") (some anchorOct21) "UTC" none = .error .reError ∧
    normalize_deadline_repaired anchorOct21 17 (some "mayhem 5") (some anchorOct21) "UTC" none = .ok "May 05, 2024, 17:00" :=
  ⟨rfl, rfl⟩

end AIMailPilot
